import Mathlib

/-!
Verification of the mp-news-room pipeline (src/mp_news_feed) against its
natural-language specification.

The development shallowly embeds the Python sources:
  - a JSON value type with a serializer modelling Python json.dump with
    indent=2 and ensure_ascii=True, and a parser modelling json.load on the
    artifacts this program writes (objects, arrays, strings, integers and
    the three literals; floats never occur in the written artifacts);
  - search_service.run_search_async (input construction, crew invocation
    parameters, aggregation of per-MP crew results);
  - main.run phase selection, the intermediate-artifact loaders and writers;
  - the three tool wrappers (DateFilteredSerperTool, BrevoEmailTool,
    SendGridEmailTool) with their environment lookups, payloads, effects
    and error strings;
  - the pydantic field declaration of ContentFilteredItem.relevance_score.

External calls (crew kickoffs, HTTP requests, email APIs) are passed in as
explicit outcome parameters; the functions below compute exactly what the
Python code computes from those outcomes.
-/

namespace MpNews

/-! ## JSON values (the shape handled by Python json for this program) -/

inductive Json where
  | null
  | bool (b : Bool)
  | int (n : Int)
  | str (s : String)
  | arr (elems : List Json)
  | obj (members : List (String × Json))

/-! ## Serialization: Python json.dump(obj, f, indent=2) with ensure_ascii=True -/

/-- Lower-case hexadecimal digit, also used for decimal digits below 10. -/
def hexDig (n : Nat) : Char :=
  if n < 10 then Char.ofNat (48 + n) else Char.ofNat (87 + n)

/-- The four hex digits of a code unit, as in the CPython \u escape. -/
def hex4Chars (n : Nat) : List Char :=
  [hexDig (n / 4096 % 16), hexDig (n / 256 % 16), hexDig (n / 16 % 16), hexDig (n % 16)]

/-- One character of a JSON string as CPython json.dumps (ensure_ascii=True)
emits it: the two-character escapes from ESCAPE_DCT, printable ASCII
verbatim, everything else as \uXXXX with a surrogate pair above 0xFFFF. -/
def encodeChar (c : Char) : List Char :=
  if c = '"' then ['\\', '"']
  else if c = '\\' then ['\\', '\\']
  else if c = '\n' then ['\\', 'n']
  else if c = '\r' then ['\\', 'r']
  else if c = '\t' then ['\\', 't']
  else if c.toNat = 8 then ['\\', 'b']
  else if c.toNat = 12 then ['\\', 'f']
  else if 32 ≤ c.toNat ∧ c.toNat ≤ 126 then [c]
  else if c.toNat < 65536 then '\\' :: 'u' :: hex4Chars c.toNat
  else
    '\\' :: 'u' :: hex4Chars (55296 + (c.toNat - 65536) / 1024) ++
      ('\\' :: 'u' :: hex4Chars (56320 + (c.toNat - 65536) % 1024))

/-- A serialized JSON string, quotes included. -/
def encodeString (s : String) : List Char :=
  '"' :: s.data.flatMap encodeChar ++ ['"']

/-- Decimal digits of a natural number, as Python repr writes them. -/
def natDecChars (n : Nat) : List Char :=
  if n < 10 then [hexDig n]
  else natDecChars (n / 10) ++ [hexDig (n % 10)]
decreasing_by exact Nat.div_lt_self (by omega) (by omega)

/-- Decimal form of an integer, as Python repr writes it. -/
def intChars : Int → List Char
  | .ofNat n => natDecChars n
  | .negSucc n => '-' :: natDecChars (n + 1)

/-- json.dump with indent=2 puts list/dict items on their own lines,
indented two spaces per nesting level. -/
def wsIndent (lvl : Nat) : List Char :=
  List.replicate (2 * lvl) ' '

mutual

/-- Serializer for json.dump(value, f, indent=2): `lvl` is the current
nesting level (0 at top level). -/
def dumpsVal : Json → Nat → List Char
  | .null, _ => ['n', 'u', 'l', 'l']
  | .bool true, _ => ['t', 'r', 'u', 'e']
  | .bool false, _ => ['f', 'a', 'l', 's', 'e']
  | .int n, _ => intChars n
  | .str s, _ => encodeString s
  | .arr [], _ => ['[', ']']
  | .arr (x :: xs), lvl =>
      '[' :: '\n' :: wsIndent (lvl + 1) ++ dumpsVal x (lvl + 1) ++
        dumpsArrTail xs (lvl + 1) ++ '\n' :: wsIndent lvl ++ [']']
  | .obj [], _ => ['{', '}']
  | .obj (m :: ms), lvl =>
      '{' :: '\n' :: wsIndent (lvl + 1) ++ dumpsMember m (lvl + 1) ++
        dumpsObjTail ms (lvl + 1) ++ '\n' :: wsIndent lvl ++ ['}']

/-- One dict entry: serialized key, then the key separator ": ". -/
def dumpsMember : String × Json → Nat → List Char
  | (k, v), lvl => encodeString k ++ ':' :: ' ' :: dumpsVal v lvl

/-- Remaining list items, each preceded by the item separator ",\n" and
the indent of the current level. -/
def dumpsArrTail : List Json → Nat → List Char
  | [], _ => []
  | x :: xs, lvl => ',' :: '\n' :: wsIndent lvl ++ dumpsVal x lvl ++ dumpsArrTail xs lvl

/-- Remaining dict entries, each preceded by ",\n" and the indent. -/
def dumpsObjTail : List (String × Json) → Nat → List Char
  | [], _ => []
  | m :: ms, lvl => ',' :: '\n' :: wsIndent lvl ++ dumpsMember m lvl ++ dumpsObjTail ms lvl

end

/-- The full text json.dump(value, f, indent=2) writes. -/
def dumps (j : Json) : String :=
  String.mk (dumpsVal j 0)

/-! ## Parsing: Python json.load on the artifacts this program writes -/

/-- JSON whitespace. -/
def isWsChar (c : Char) : Bool :=
  c = ' ' ∨ c = '\n' ∨ c = '\t' ∨ c = '\r'

/-- Drop leading JSON whitespace. -/
def skipWs : List Char → List Char
  | [] => []
  | c :: r => if isWsChar c then skipWs r else c :: r

/-- Value of one hexadecimal digit character. -/
def hexVal (c : Char) : Option Nat :=
  if '0' ≤ c ∧ c ≤ '9' then some (c.toNat - 48)
  else if 'a' ≤ c ∧ c ≤ 'f' then some (c.toNat - 87)
  else if 'A' ≤ c ∧ c ≤ 'F' then some (c.toNat - 55)
  else none

/-- Value of the four hex digits of a \uXXXX escape. -/
def hex4Val (a b c d : Char) : Option Nat :=
  match hexVal a, hexVal b, hexVal c, hexVal d with
  | some x, some y, some z, some w => some (x * 4096 + y * 256 + z * 16 + w)
  | _, _, _, _ => none

/-- The two-character escapes accepted after a backslash. -/
def simpleEscape (e : Char) : Option Char :=
  if e = '"' then some '"'
  else if e = '\\' then some '\\'
  else if e = '/' then some '/'
  else if e = 'n' then some '\n'
  else if e = 't' then some '\t'
  else if e = 'r' then some '\r'
  else if e = 'b' then some (Char.ofNat 8)
  else if e = 'f' then some (Char.ofNat 12)
  else none

/-- After a high surrogate `n`, json.loads demands a second \uXXXX escape
holding the low surrogate, and combines the pair into one code point.
A lone surrogate is rejected (Lean strings hold scalar values only, and
the serializer above never produces one). -/
def parseLowSurr (n : Nat) (l : List Char) : Option (Char × List Char) :=
  match l with
  | x :: y :: a2 :: b2 :: e1 :: e2 :: r2 =>
    if x = '\\' ∧ y = 'u' then
      match hex4Val a2 b2 e1 e2 with
      | some m =>
        if 56320 ≤ m ∧ m ≤ 57343 then
          some (Char.ofNat (65536 + (n - 55296) * 1024 + (m - 56320)), r2)
        else none
      | none => none
    else none
  | _ => none

/-- A \uXXXX escape body (the four hex digits onward): the decoded
character and the rest of the input. -/
def parseUEsc (l : List Char) : Option (Char × List Char) :=
  match l with
  | a :: b :: d1 :: d2 :: r =>
    match hex4Val a b d1 d2 with
    | none => none
    | some n =>
      if 55296 ≤ n ∧ n ≤ 56319 then parseLowSurr n r
      else if 56320 ≤ n ∧ n ≤ 57343 then none
      else some (Char.ofNat n, r)
  | _ => none

/-- What follows a backslash inside a JSON string: a \uXXXX escape or a
two-character escape. -/
def parseEsc (l : List Char) : Option (Char × List Char) :=
  match l with
  | [] => none
  | e :: r =>
    if e = 'u' then parseUEsc r
    else
      match simpleEscape e with
      | some c => some (c, r)
      | none => none

/-- Body of a JSON string after the opening quote: the decoded characters
and the rest of the input after the closing quote.  Every step consumes at
least one input character, so fuel equal to the input length suffices. -/
def parseStringBodyAux : Nat → List Char → Option (List Char × List Char)
  | 0, _ => none
  | _ + 1, [] => none
  | fuel + 1, c :: r =>
    if c = '"' then some ([], r)
    else if c = '\\' then
      match parseEsc r with
      | some (d, rest) =>
        match parseStringBodyAux fuel rest with
        | some (s, rest2) => some (d :: s, rest2)
        | none => none
      | none => none
    else
      match parseStringBodyAux fuel r with
      | some (s, rest) => some (c :: s, rest)
      | none => none

/-- Body of a JSON string after the opening quote. -/
def parseStringBody (l : List Char) : Option (List Char × List Char) :=
  parseStringBodyAux (l.length + 1) l

/-- Decimal digit? -/
def isDigitChar (c : Char) : Bool :=
  48 ≤ c.toNat ∧ c.toNat ≤ 57

/-- Consume a maximal run of decimal digits, folding them onto `acc`. -/
def parseDigitsAux : List Char → Nat → Nat × List Char
  | [], acc => (acc, [])
  | c :: r, acc =>
    if isDigitChar c then parseDigitsAux r (acc * 10 + (c.toNat - 48))
    else (acc, c :: r)

/-- An integer literal (optional minus sign, then digits).  The artifacts
written by this program contain no floats, so fraction and exponent parts
never occur. -/
def parseNumber (l : List Char) : Option (Json × List Char) :=
  match l with
  | [] => none
  | c :: r =>
    if c = '-' then
      match r with
      | d :: _ =>
        if isDigitChar d then
          let p := parseDigitsAux r 0
          some (.int (-(p.1 : Int)), p.2)
        else none
      | [] => none
    else if isDigitChar c then
      let p := parseDigitsAux (c :: r) 0
      some (.int (p.1 : Int), p.2)
    else none

/-- True when the input does not continue with a digit (so a maximal digit
run ends here). -/
def noDigitHead : List Char → Bool
  | [] => true
  | c :: _ => !(isDigitChar c)

mutual

/-- One JSON value, leading whitespace allowed.  The fuel argument only
bounds the recursion; `loads` supplies more fuel than any input can use. -/
def parseValue : Nat → List Char → Option (Json × List Char)
  | 0, _ => none
  | fuel + 1, l =>
    match skipWs l with
    | [] => none
    | c :: r =>
      if c = '"' then
        match parseStringBody r with
        | some (s, rest) => some (.str (String.mk s), rest)
        | none => none
      else if c = '{' then
        match skipWs r with
        | '}' :: rest => some (.obj [], rest)
        | r2 => parseMembers fuel r2
      else if c = '[' then
        match skipWs r with
        | ']' :: rest => some (.arr [], rest)
        | r2 => parseElements fuel r2
      else if c = 't' then
        match r with
        | 'r' :: 'u' :: 'e' :: rest => some (.bool true, rest)
        | _ => none
      else if c = 'f' then
        match r with
        | 'a' :: 'l' :: 's' :: 'e' :: rest => some (.bool false, rest)
        | _ => none
      else if c = 'n' then
        match r with
        | 'u' :: 'l' :: 'l' :: rest => some (.null, rest)
        | _ => none
      else parseNumber (c :: r)

/-- The members of a non-empty object, starting at the opening quote of the first key, up to and including the closing brace. -/
def parseMembers : Nat → List Char → Option (Json × List Char)
  | 0, _ => none
  | fuel + 1, l =>
    match l with
    | '"' :: r =>
      match parseStringBody r with
      | some (k, rest) =>
        match skipWs rest with
        | ':' :: rest2 =>
          match parseValue fuel rest2 with
          | some (v, rest3) =>
            match skipWs rest3 with
            | ',' :: rest4 =>
              match parseMembers fuel (skipWs rest4) with
              | some (.obj ms, rest5) => some (.obj ((String.mk k, v) :: ms), rest5)
              | _ => none
            | '}' :: rest4 => some (.obj [(String.mk k, v)], rest4)
            | _ => none
          | none => none
        | _ => none
      | none => none
    | _ => none

/-- The elements of a non-empty array, starting at the first element, up to
and including the closing bracket. -/
def parseElements : Nat → List Char → Option (Json × List Char)
  | 0, _ => none
  | fuel + 1, l =>
    match parseValue fuel l with
    | some (v, rest) =>
      match skipWs rest with
      | ',' :: rest2 =>
        match parseElements fuel (skipWs rest2) with
        | some (.arr vs, rest3) => some (.arr (v :: vs), rest3)
        | _ => none
      | ']' :: rest2 => some (.arr [v], rest2)
      | _ => none
    | none => none

end

/-- json.loads / json.load: one value, then nothing but whitespace. -/
def loads (s : String) : Option Json :=
  match parseValue (s.length + 1) s.data with
  | some (j, rest) => if skipWs rest = [] then some j else none
  | none => none

/-! ## search_crew.py: result schema of one per-MP SearchCrew run -/

/-- search_crew.ArticleResult: one search-result article. -/
structure ArticleResult where
  title : String
  url : String
  publication_date : String
  source : String
  summary : String
deriving DecidableEq, Repr

/-- search_crew.MPSearchResult: the structured output of one per-MP crew. -/
structure MPSearchResult where
  mp_name : String
  country : String
  articles : List ArticleResult
deriving DecidableEq, Repr

/-- One element of the list kickoff_for_each_async returns.  run_search_async
branches on `result and hasattr(result, pydantic)`: a crew output either
carries parseable structured (pydantic) output or only its raw text; a falsy
result carries nothing. -/
inductive CrewOutput where
  | pydanticOut (res : MPSearchResult)
  | rawOut (raw : String)
deriving DecidableEq, Repr

/-! ## search_service.py -/

/-- One MP entry of mp_list (dict with name and country keys). -/
structure MP where
  name : String
  country : String
deriving DecidableEq, Repr

/-- One aggregated article record in MpNewsResearch format, as built by the
loop in run_search_async. -/
structure MpNewsRecord where
  mp_name : String
  article_title : String
  article_url : String
  publication_date : String
  source_name : String
  article_summary : String
deriving DecidableEq, Repr

/-- The per-MP inputs dict built at the top of run_search_async. -/
structure SearchInput where
  mp_name : String
  mp_country : String
  timeframe : String
  today : String
deriving DecidableEq, Repr

/-- The inputs_list comprehension of run_search_async. -/
def buildInputsList (mp_list : List MP) (timeframe today : String) : List SearchInput :=
  mp_list.map fun mp =>
    { mp_name := mp.name, mp_country := mp.country, timeframe := timeframe, today := today }

/-- When today is None the current date is used instead (the `if today is
None` branch). -/
def resolveToday (today : Option String) (now : String) : String :=
  today.getD now

/-- The parameters run_search_async hands to the crew fan-out: the per-MP
inputs list, and max_rpm set on the crew object.  kickoff_for_each_async
receives only the inputs list; no concurrency bound is passed to it or
enforced elsewhere. -/
structure CrewKickoffCall where
  inputsList : List SearchInput
  max_rpm : Nat
deriving DecidableEq, Repr

/-- The crew invocation run_search_async performs (lines 41-59):
inputs_list from mp_list, and crew.max_rpm = max_concurrency * 20. -/
def searchKickoffCall (mp_list : List MP) (timeframe : String) (today : Option String)
    (max_concurrency : Nat) (now : String) : CrewKickoffCall :=
  { inputsList := buildInputsList mp_list timeframe (resolveToday today now),
    max_rpm := max_concurrency * 20 }

/-- The crewai kickoff_for_each_async call creates one asyncio task per input and
awaits them together (asyncio.gather); every per-MP crew execution is
started concurrently, so the number of concurrently launched executions is
the length of the inputs list. -/
def kickoffConcurrentExecutions (call : CrewKickoffCall) : Nat :=
  call.inputsList.length

/-- The record appended to research_list for one article of one MP result
(body of the inner for loop of run_search_async). -/
def recordOfArticle (mpName : String) (a : ArticleResult) : MpNewsRecord :=
  { mp_name := mpName, article_title := a.title, article_url := a.url,
    publication_date := a.publication_date, source_name := a.source,
    article_summary := a.summary }

/-- One step of the aggregation loop over results: a result with pydantic
output contributes one record per article; a result with only raw output is
logged (a warning) and contributes nothing; a falsy result is skipped. -/
def aggregateStep (acc : List MpNewsRecord × List String) (result : Option CrewOutput) :
    List MpNewsRecord × List String :=
  match result with
  | some (.pydanticOut mp) =>
      (acc.1 ++ mp.articles.map (recordOfArticle mp.mp_name), acc.2)
  | some (.rawOut raw) =>
      (acc.1, acc.2 ++ ["Warning: Result returned raw output instead of pydantic: " ++ raw])
  | none => (acc.1, acc.2)

/-- The aggregation loop of run_search_async: research_list and the printed
warnings, folded over the crew results in arrival order. -/
def aggregateResults (results : List (Option CrewOutput)) : List MpNewsRecord × List String :=
  results.foldl aggregateStep ([], [])

/-- The dict run_search_async returns. -/
structure SearchOutput where
  research_list : List MpNewsRecord
  mp_count : Nat
  search_date : String
  timeframe : String
deriving DecidableEq, Repr

/-- run_search_async: aggregates the crew results (passed in as the outcome
of the external kickoff_for_each_async call) and builds the returned dict. -/
def run_search_async (mp_list : List MP) (timeframe : String) (today : Option String)
    (max_concurrency : Nat) (now : String) (results : List (Option CrewOutput)) : SearchOutput :=
  { research_list := (aggregateResults results).1,
    mp_count := mp_list.length,
    search_date := resolveToday today now,
    timeframe := timeframe }

/-- JSON projection of one research_list record (a flat dict of strings, in
insertion order). -/
def recordToJson (r : MpNewsRecord) : Json :=
  .obj [("mp_name", .str r.mp_name), ("article_title", .str r.article_title),
    ("article_url", .str r.article_url), ("publication_date", .str r.publication_date),
    ("source_name", .str r.source_name), ("article_summary", .str r.article_summary)]

/-- JSON projection of the dict run_search_async returns (insertion order:
research_list, mp_count, search_date, timeframe). -/
def searchOutputToJson (s : SearchOutput) : Json :=
  .obj [("research_list", .arr (s.research_list.map recordToJson)),
    ("mp_count", .int (s.mp_count : Int)),
    ("search_date", .str s.search_date),
    ("timeframe", .str s.timeframe)]

/-! ## main.py: artifacts, loaders and phase control -/

/-- The two fixed artifact paths under OUTPUT_DIR (the directory prefix is
machine dependent; these are the path suffixes both writers and readers
share). -/
def SEARCH_RESULTS_FILE : String := "output/search_results.json"

def SUMMARY_REPORT_FILE : String := "output/summary_report.md"

/-- The two intermediate artifacts on disk; none means the file does not
exist. -/
structure FileSystem where
  search_results_file : Option String
  summary_report_file : Option String
deriving DecidableEq, Repr

/-- The exceptions main.py distinguishes: FileNotFoundError is caught by
run and turned into exit(1); json.JSONDecodeError propagates into the
generic except branch. -/
inductive PyError where
  | fileNotFound (msg : String)
  | jsonDecode
deriving DecidableEq, Repr

/-- main.load_search_results: FileNotFoundError naming the file and the
phase to run first when the artifact is missing; otherwise json.load. -/
def load_search_results (fs : FileSystem) : Except PyError Json :=
  match fs.search_results_file with
  | none =>
      .error (.fileNotFound ("Search results not found at " ++ SEARCH_RESULTS_FILE ++ "\n" ++
        "Run \x27crewai run\x27 or \x27crewai run -- --search-only\x27 first."))
  | some contents =>
      match loads contents with
      | some j => .ok j
      | none => .error .jsonDecode

/-- main.load_summary_report: FileNotFoundError naming the file and the
phase to run first when the artifact is missing; otherwise the file text. -/
def load_summary_report (fs : FileSystem) : Except PyError String :=
  match fs.summary_report_file with
  | none =>
      .error (.fileNotFound ("Summary report not found at " ++ SUMMARY_REPORT_FILE ++ "\n" ++
        "Run \x27crewai run\x27 or \x27crewai run -- --analyze-only\x27 first."))
  | some contents => .ok contents

/-- The inputs main.get_inputs builds that the phases consume (the email,
focus-area and date-range entries do not affect the modelled behaviour). -/
structure Inputs where
  mp_list : List MP
  today : String
  timeframe : String
deriving DecidableEq, Repr

/-- main.run_phase1_search: runs the search (max_concurrency=10, today from
inputs) and writes the resulting dict to search_results.json with
json.dump(..., indent=2).  The crew results come from the external
kickoff. -/
def run_phase1_search (fs : FileSystem) (inputs : Inputs)
    (crewResults : List (Option CrewOutput)) : FileSystem × SearchOutput :=
  let search_results := run_search_async inputs.mp_list inputs.timeframe (some inputs.today) 10
    inputs.today crewResults
  ({ fs with search_results_file := some (dumps (searchOutputToJson search_results)) },
    search_results)

/-- Modelled from the spec: the write of the Markdown report in the compose
phase is performed by the crew engine through the configured output file of
the compose task (config/tasks.yaml, not under src); the spec records it as "a Markdown
file holding the composed report" at the fixed path.  The report text is
the external crew outcome. -/
def writeSummaryReport (fs : FileSystem) (report : String) : FileSystem :=
  { fs with summary_report_file := some report }

/-- main.run_phase2_analysis: kicks off the analysis crew, whose compose
task persists the report (see writeSummaryReport). -/
def run_phase2_analysis (fs : FileSystem) (report : String) : FileSystem :=
  writeSummaryReport fs report

/-- main.run_phase3_email: loads the existing report (which may raise
FileNotFoundError) and hands it to the email crew. -/
def run_phase3_email (fs : FileSystem) : Except PyError String :=
  load_summary_report fs

/-- The three CLI flags of main.parse_args. -/
structure Args where
  search_only : Bool
  analyze_only : Bool
  email_only : Bool
deriving DecidableEq, Repr

/-- sum(flags) over the three booleans. -/
def flagCount (a : Args) : Nat :=
  (cond a.search_only 1 0) + (cond a.analyze_only 1 0) + (cond a.email_only 1 0)

/-- A pipeline phase. -/
inductive Phase where
  | search
  | analyze
  | email
deriving DecidableEq, Repr

/-- How main.run terminates: normally, via sys.exit(1) after printing an
error, or by re-raising a wrapped exception. -/
inductive Termination where
  | completed
  | exited (code : Nat) (printed : String)
  | raised (msg : String)
deriving DecidableEq, Repr

/-- The observable outcome of main.run: the phases that ran (in order), how
the process terminated, and the resulting artifact state. -/
structure RunOutcome where
  phases : List Phase
  term : Termination
  fs : FileSystem
deriving DecidableEq, Repr

/-- main.run: validates the mutually exclusive flags, then runs the selected
phase (or all three).  FileNotFoundError is printed and turns into
sys.exit(1); other exceptions are re-raised wrapped in a generic message.
External outcomes (per-MP crew results, the composed report text) are
explicit parameters. -/
def run (args : Args) (fs0 : FileSystem) (inputs : Inputs)
    (crewResults : List (Option CrewOutput)) (analysisReport : String) : RunOutcome :=
  if flagCount args > 1 then
    { phases := [],
      term := .exited 1 "Error: Only one of --search-only, --analyze-only, --email-only can be specified",
      fs := fs0 }
  else if args.search_only then
    { phases := [.search], term := .completed, fs := (run_phase1_search fs0 inputs crewResults).1 }
  else if args.analyze_only then
    match load_search_results fs0 with
    | .error (.fileNotFound msg) =>
        { phases := [], term := .exited 1 ("Error: " ++ msg), fs := fs0 }
    | .error .jsonDecode =>
        { phases := [], term := .raised "An error occurred while running the crew", fs := fs0 }
    | .ok _ =>
        { phases := [.analyze], term := .completed, fs := run_phase2_analysis fs0 analysisReport }
  else if args.email_only then
    match run_phase3_email fs0 with
    | .error (.fileNotFound msg) =>
        { phases := [], term := .exited 1 ("Error: " ++ msg), fs := fs0 }
    | .error .jsonDecode =>
        { phases := [], term := .raised "An error occurred while running the crew", fs := fs0 }
    | .ok _ => { phases := [.email], term := .completed, fs := fs0 }
  else
    let fs1 := (run_phase1_search fs0 inputs crewResults).1
    let fs2 := run_phase2_analysis fs1 analysisReport
    match run_phase3_email fs2 with
    | .error (.fileNotFound msg) =>
        { phases := [.search, .analyze], term := .exited 1 ("Error: " ++ msg), fs := fs2 }
    | .error .jsonDecode =>
        { phases := [.search, .analyze], term := .raised "An error occurred while running the crew",
          fs := fs2 }
    | .ok _ => { phases := [.search, .analyze, .email], term := .completed, fs := fs2 }

/-! ## tools/date_filtered_serper.py -/

/-- os.getenv returns None when the variable is unset; Python treats both
None and the empty string as falsy in `if not api_key`. -/
def envTruthy : Option String → Bool
  | none => false
  | some s => !s.isEmpty

/-- The pydantic fields of DateFilteredSerperTool. -/
structure DateFilteredSerperTool where
  api_key : Option String
  months_back : Int
  n_results : Int
deriving DecidableEq, Repr

/-- DateFilteredSerperTool.__init__: super().__init__(**kwargs) first sets
the declared field defaults (api_key None, months_back 8, n_results 10),
with an api_key kwarg overriding the None; then the body assigns
self.api_key from SERPER_API_KEY, self.months_back and self.n_results from
the named arguments. -/
def DateFilteredSerperTool.init (env_serper_api_key : Option String) (months_back : Int)
    (n_results : Int) (kwargs_api_key : Option String) : DateFilteredSerperTool :=
  let afterSuper : DateFilteredSerperTool :=
    { api_key := kwargs_api_key, months_back := 8, n_results := 10 }
  { afterSuper with
      api_key := env_serper_api_key, months_back := months_back, n_results := n_results }

/-- DateFilteredSerperTool(...) with the argument defaults months_back=8,
n_results=10 and no api_key kwarg. -/
def DateFilteredSerperTool.initDefault (env_serper_api_key : Option String) :
    DateFilteredSerperTool :=
  DateFilteredSerperTool.init env_serper_api_key 8 10 none

/-- The JSON payload _run posts to the Serper endpoint. -/
structure SerperPayload where
  q : String
  num : Int
  tbs : String
deriving DecidableEq, Repr

/-- The payload built in _run: the stored n_results and months_back drive
"num" and "tbs". -/
def serperPayload (t : DateFilteredSerperTool) (search_query : String) : SerperPayload :=
  { q := search_query, num := t.n_results, tbs := "qdr:m" ++ toString t.months_back }

/-- One organic item of the Serper response; absent keys make item.get fall
back to its default. -/
structure SerperOrganicItem where
  title : Option String
  link : Option String
  snippet : Option String
  date : Option String
  position : Option Int
deriving DecidableEq, Repr

/-- The parsed response body: "organic" may be absent. -/
structure SerperData where
  organic : Option (List SerperOrganicItem)
deriving DecidableEq, Repr

/-- Outcome of the requests.post call (a parsed response, or a
requests.exceptions.RequestException with its message). -/
inductive SerperApiOutcome where
  | response (data : SerperData)
  | requestException (msg : String)
deriving DecidableEq, Repr

/-- The externally visible side effects of one _run call. -/
inductive SerperEffect where
  | httpPost (url : String) (payload : SerperPayload)
deriving DecidableEq, Repr

/-- The result dict built for one organic item, with the .get defaults. -/
structure SerperResultItem where
  title : String
  link : String
  snippet : String
  date : String
  position : Int
deriving DecidableEq, Repr

def extractSerperItem (it : SerperOrganicItem) : SerperResultItem :=
  { title := it.title.getD "", link := it.link.getD "", snippet := it.snippet.getD "",
    date := it.date.getD "Unknown", position := it.position.getD 0 }

/-- Python repr of a string in single quotes (the common case: the repr
escaping of quotes and control characters inside the text does not matter
to any claim, and the artifacts involved contain neither). -/
def pyRepr (s : String) : String :=
  "\x27" ++ s ++ "\x27"

def pyReprInt (n : Int) : String :=
  toString n

/-- str() of one extracted result dict. -/
def pyStrResultItem (it : SerperResultItem) : String :=
  "\x7b" ++ pyRepr "title" ++ ": " ++ pyRepr it.title ++ ", " ++
    pyRepr "link" ++ ": " ++ pyRepr it.link ++ ", " ++
    pyRepr "snippet" ++ ": " ++ pyRepr it.snippet ++ ", " ++
    pyRepr "date" ++ ": " ++ pyRepr it.date ++ ", " ++
    pyRepr "position" ++ ": " ++ pyReprInt it.position ++ "\x7d"

def pyStrList (items : List String) : String :=
  "[" ++ String.intercalate ", " items ++ "]"

/-- str() of the payload dict. -/
def pyStrPayload (p : SerperPayload) : String :=
  "\x7b" ++ pyRepr "q" ++ ": " ++ pyRepr p.q ++ ", " ++
    pyRepr "num" ++ ": " ++ pyReprInt p.num ++ ", " ++
    pyRepr "tbs" ++ ": " ++ pyRepr p.tbs ++ "\x7d"

/-- str() of the final dict _run returns on success with results. -/
def pyStrSearchResponse (p : SerperPayload) (items : List SerperResultItem) : String :=
  "\x7b" ++ pyRepr "searchParameters" ++ ": " ++ pyStrPayload p ++ ", " ++
    pyRepr "organic" ++ ": " ++ pyStrList (items.map pyStrResultItem) ++ "\x7d"

/-- DateFilteredSerperTool._run: the returned string and the effects
performed, given the outcome of the HTTP call. -/
def DateFilteredSerperTool.run (t : DateFilteredSerperTool) (search_query : String)
    (api : SerperApiOutcome) : String × List SerperEffect :=
  if !(envTruthy t.api_key) then
    ("Error: SERPER_API_KEY environment variable not set", [])
  else
    let payload := serperPayload t search_query
    let effects := [SerperEffect.httpPost "https://google.serper.dev/search" payload]
    match api with
    | .requestException msg => ("Search error: " ++ msg, effects)
    | .response data =>
      let results :=
        match data.organic with
        | some items => items.map extractSerperItem
        | none => []
      if results.isEmpty then
        ("No results found for: " ++ search_query, effects)
      else
        (pyStrSearchResponse payload results, effects)

/-! ## tools/brevo_tool.py -/

/-- Outcome of the Brevo send call. -/
inductive BrevoApiOutcome where
  | success (messageId : String)
  | apiException (msg : String)
  | otherException (msg : String)
deriving DecidableEq, Repr

/-- The externally visible side effects of one BrevoEmailTool._run call. -/
inductive BrevoEffect where
  | clientConfigured (apiKey : String)
  | sendEmail (toEmail subject htmlContent : String)
deriving DecidableEq, Repr

/-- BrevoEmailTool._run: checks BREVO_API_KEY before building the client,
returns a success or error string, and never raises (ApiException and any
other exception become strings). -/
def BrevoEmailTool.run (env_brevo_api_key : Option String) (api : BrevoApiOutcome)
    (to_email subject html_content : String) : String × List BrevoEffect :=
  if !(envTruthy env_brevo_api_key) then
    ("Error: BREVO_API_KEY environment variable not set", [])
  else
    let key := env_brevo_api_key.getD ""
    let effects := [BrevoEffect.clientConfigured key,
      BrevoEffect.sendEmail to_email subject html_content]
    match api with
    | .success mid =>
        ("Email sent successfully!" ++ "\n" ++ "Message ID: " ++ mid ++ "\n" ++
          "To: " ++ to_email ++ "\n" ++ "Subject: " ++ subject, effects)
    | .apiException msg => ("Error sending email (API): " ++ msg, effects)
    | .otherException msg => ("Error sending email: " ++ msg, effects)

/-! ## tools/sendgrid_tool.py -/

/-- Outcome of the SendGrid send call. -/
inductive SendGridApiOutcome where
  | success (statusCode : Int) (dateHeader : Option String)
  | exception (msg : String)
deriving DecidableEq, Repr

/-- The externally visible side effects of one SendGridEmailTool._run call. -/
inductive SendGridEffect where
  | clientCreated (apiKey : String)
  | sendEmail (toEmail subject htmlContent : String)
deriving DecidableEq, Repr

/-- Python string interpolation of an optional value (None prints as
"None"). -/
def pyStrOpt : Option String → String
  | none => "None"
  | some s => s

/-- SendGridEmailTool._run: checks SENDGRID_API_KEY before creating the
client; every exception becomes an error string. -/
def SendGridEmailTool.run (env_sendgrid_api_key : Option String) (api : SendGridApiOutcome)
    (to_email subject html_content : String) (from_email : Option String) :
    String × List SendGridEffect :=
  if !(envTruthy env_sendgrid_api_key) then
    ("Error: SENDGRID_API_KEY environment variable not set", [])
  else
    let key := env_sendgrid_api_key.getD ""
    let effects := [SendGridEffect.clientCreated key,
      SendGridEffect.sendEmail to_email subject html_content]
    match api with
    | .success status dateHeader =>
        ("✓ Email sent successfully!" ++ "\n" ++ "Status Code: " ++ toString status ++ "\n" ++
          "From: " ++ pyStrOpt from_email ++ "\n" ++ "To: " ++ to_email ++ "\n" ++
          "Subject: " ++ subject ++ "\n" ++ "Timestamp: " ++ dateHeader.getD "N/A", effects)
    | .exception msg => ("Error sending email: " ++ msg, effects)

/-! ## crew.py: the relevance_score field declaration -/

/-- A pydantic int field declaration: the description string, and the ge/le
numeric constraints if any were declared. -/
structure IntFieldSpec where
  description : String
  ge : Option Int
  le : Option Int
deriving DecidableEq, Repr

/-- crew.py line 43: `relevance_score: int = Field(description="Relevance
score 0-10")` - a description only, with no ge/le bound declared. -/
def relevance_score_field : IntFieldSpec :=
  { description := "Relevance score 0-10", ge := none, le := none }

/-- pydantic validation of an int value against a field declaration: only
declared ge/le constraints are checked. -/
def IntFieldSpec.accepts (f : IntFieldSpec) (v : Int) : Bool :=
  (match f.ge with
   | some b => decide (b ≤ v)
   | none => true) &&
  (match f.le with
   | some b => decide (v ≤ b)
   | none => true)

/-- crew.ContentFilteredItem: a scored/filtered news item. -/
structure ContentFilteredItem where
  mp_name : String
  article_title : String
  article_url : String
  publication_date : String
  source_name : String
  article_summary : String
  relevance_score : Int
  inclusion_reason : String
deriving DecidableEq, Repr

/-- Whether pydantic accepts the record: the only candidate numeric
constraint site is the relevance_score field declaration. -/
def ContentFilteredItem.validate (i : ContentFilteredItem) : Bool :=
  relevance_score_field.accepts i.relevance_score

/-! ## Proof device: a parsing specification for one serialized value -/

/-- The stream parses as the value `j`, leaving any non-digit-headed tail
untouched (every continuation the serializer produces starts with a
separator or a close bracket, never a digit). -/
def ValParses (fuel : Nat) (stream : List Char) (j : Json) : Prop :=
  ∀ tail, noDigitHead tail = true → parseValue fuel (stream ++ tail) = some (j, tail)

/-! ## Round trip of the JSON serializer and parser -/

theorem hexVal_hexDig (d : Nat) (h : d < 16) : hexVal (hexDig d) = some d := by
  have key : ∀ x : Fin 16, hexVal (hexDig x.val) = some x.val := by decide
  exact key ⟨d, h⟩

theorem hex4Val_round (n : Nat) (h : n < 65536) :
    hex4Val (hexDig (n / 4096 % 16)) (hexDig (n / 256 % 16)) (hexDig (n / 16 % 16)) (hexDig (n % 16)) = some n := by
  unfold hex4Val
  rw [hexVal_hexDig _ (Nat.mod_lt _ (by omega)), hexVal_hexDig _ (Nat.mod_lt _ (by omega)),
    hexVal_hexDig _ (Nat.mod_lt _ (by omega)), hexVal_hexDig _ (Nat.mod_lt _ (by omega))]
  simp only []
  congr 1
  omega

theorem parseUEsc_hex4 (n : Nat) (hn : n < 65536) (tail : List Char) :
    parseUEsc (hex4Chars n ++ tail) =
      (if 55296 ≤ n ∧ n ≤ 56319 then parseLowSurr n tail
       else if 56320 ≤ n ∧ n ≤ 57343 then none
       else some (Char.ofNat n, tail)) := by
  simp only [hex4Chars, List.cons_append, List.nil_append, parseUEsc, hex4Val_round n hn]

theorem parseUEsc_ok16 (n : Nat) (hn : n < 65536) (hs : ¬(55296 ≤ n ∧ n ≤ 57343)) (tail : List Char) :
    parseUEsc (hex4Chars n ++ tail) = some (Char.ofNat n, tail) := by
  rw [parseUEsc_hex4 n hn, if_neg (by omega), if_neg (by omega)]

theorem parseLowSurr_ok (n m : Nat) (hm : m < 65536) (hr : 56320 ≤ m ∧ m ≤ 57343) (tail : List Char) :
    parseLowSurr n ('\\' :: 'u' :: (hex4Chars m ++ tail)) =
      some (Char.ofNat (65536 + (n - 55296) * 1024 + (m - 56320)), tail) := by
  simp only [hex4Chars, List.cons_append, List.nil_append, parseLowSurr, hex4Val_round m hm]
  rw [if_pos ⟨trivial, trivial⟩, if_pos hr]

theorem parseUEsc_pair (n : Nat) (h1 : 65536 ≤ n) (h2 : n < 1114112) (tail : List Char) :
    parseUEsc (hex4Chars (55296 + (n - 65536) / 1024) ++
      ('\\' :: 'u' :: (hex4Chars (56320 + (n - 65536) % 1024) ++ tail))) = some (Char.ofNat n, tail) := by
  have hhi : 55296 + (n - 65536) / 1024 < 65536 := by omega
  have hlo : 56320 + (n - 65536) % 1024 < 65536 := by omega
  rw [parseUEsc_hex4 _ hhi, if_pos (by omega), parseLowSurr_ok _ _ hlo (by omega)]
  have hchar : 65536 + (55296 + (n - 65536) / 1024 - 55296) * 1024 + (56320 + (n - 65536) % 1024 - 56320) = n := by
    omega
  rw [hchar]

theorem char_valid_range (c : Char) : c.toNat < 55296 ∨ (57343 < c.toNat ∧ c.toNat < 1114112) := by
  have h := c.valid
  simp only [UInt32.isValidChar, Nat.isValidChar] at h
  exact h

theorem psbAux_lit (fuel : Nat) (c : Char) (h1 : c ≠ '"') (h2 : c ≠ '\\') (r : List Char) :
    parseStringBodyAux (fuel + 1) (c :: r) =
      (parseStringBodyAux fuel r).map (fun p => (c :: p.1, p.2)) := by
  simp only [parseStringBodyAux, if_neg h1, if_neg h2]
  cases parseStringBodyAux fuel r with
  | none => rfl
  | some p => rfl

theorem psbAux_esc (fuel : Nat) (e ec : Char) (he : e ≠ 'u') (hs : simpleEscape e = some ec)
    (r : List Char) :
    parseStringBodyAux (fuel + 1) ('\\' :: e :: r) =
      (parseStringBodyAux fuel r).map (fun p => (ec :: p.1, p.2)) := by
  simp only [parseStringBodyAux, if_neg (show ('\\' : Char) ≠ '"' by decide), if_pos rfl,
    parseEsc, if_neg he, hs]
  cases parseStringBodyAux fuel r with
  | none => rfl
  | some p => rfl

theorem psbAux_uesc (fuel : Nat) (d : Char) (rest rest2 : List Char)
    (h : parseUEsc rest = some (d, rest2)) :
    parseStringBodyAux (fuel + 1) ('\\' :: 'u' :: rest) =
      (parseStringBodyAux fuel rest2).map (fun p => (d :: p.1, p.2)) := by
  simp only [parseStringBodyAux, if_neg (show ('\\' : Char) ≠ '"' by decide), if_pos rfl,
    parseEsc, if_pos rfl, if_true, h]
  cases parseStringBodyAux fuel rest2 with
  | none => rfl
  | some p => rfl

theorem psbAux_encodeChar (fuel : Nat) (c : Char) (r : List Char) :
    parseStringBodyAux (fuel + 1) (encodeChar c ++ r) =
      (parseStringBodyAux fuel r).map (fun p => (c :: p.1, p.2)) := by
  by_cases h1 : c = '"'
  · subst h1
    exact psbAux_esc fuel '"' '"' (by decide) (by decide) r
  by_cases h2 : c = '\\'
  · subst h2
    exact psbAux_esc fuel '\\' '\\' (by decide) (by decide) r
  by_cases h3 : c = '\n'
  · subst h3
    exact psbAux_esc fuel 'n' '\n' (by decide) (by decide) r
  by_cases h4 : c = '\r'
  · subst h4
    exact psbAux_esc fuel 'r' '\r' (by decide) (by decide) r
  by_cases h5 : c = '\t'
  · subst h5
    exact psbAux_esc fuel 't' '\t' (by decide) (by decide) r
  by_cases h6 : c.toNat = 8
  · have hc : c = Char.ofNat 8 := by
      rw [← h6, Char.ofNat_toNat]
    subst hc
    exact psbAux_esc fuel 'b' (Char.ofNat 8) (by decide) (by decide) r
  by_cases h7 : c.toNat = 12
  · have hc : c = Char.ofNat 12 := by
      rw [← h7, Char.ofNat_toNat]
    subst hc
    exact psbAux_esc fuel 'f' (Char.ofNat 12) (by decide) (by decide) r
  by_cases h8 : 32 ≤ c.toNat ∧ c.toNat ≤ 126
  · rw [show encodeChar c = [c] by
      unfold encodeChar
      rw [if_neg h1, if_neg h2, if_neg h3, if_neg h4, if_neg h5, if_neg h6, if_neg h7, if_pos h8]]
    exact psbAux_lit fuel c h1 h2 r
  by_cases h9 : c.toNat < 65536
  · have henc : encodeChar c ++ r = '\\' :: 'u' :: (hex4Chars c.toNat ++ r) := by
      unfold encodeChar
      rw [if_neg h1, if_neg h2, if_neg h3, if_neg h4, if_neg h5, if_neg h6, if_neg h7, if_neg h8,
        if_pos h9]
      simp [hex4Chars]
    rw [henc, psbAux_uesc fuel c (hex4Chars c.toNat ++ r) r
      (by
        have hval := char_valid_range c
        rw [parseUEsc_ok16 c.toNat h9 (by omega) r, Char.ofNat_toNat])]
  · have hval := char_valid_range c
    have h10 : 65536 ≤ c.toNat ∧ c.toNat < 1114112 := by omega
    have henc : encodeChar c ++ r =
        '\\' :: 'u' :: (hex4Chars (55296 + (c.toNat - 65536) / 1024) ++
          ('\\' :: 'u' :: (hex4Chars (56320 + (c.toNat - 65536) % 1024) ++ r))) := by
      unfold encodeChar
      rw [if_neg h1, if_neg h2, if_neg h3, if_neg h4, if_neg h5, if_neg h6, if_neg h7, if_neg h8,
        if_neg h9]
      simp [hex4Chars]
    rw [henc, psbAux_uesc fuel c _ r
      (by rw [parseUEsc_pair c.toNat h10.1 h10.2 r, Char.ofNat_toNat])]

theorem psbAux_encode (cs : List Char) : ∀ (fuel : Nat) (tail : List Char), cs.length < fuel →
    parseStringBodyAux fuel (cs.flatMap encodeChar ++ ('"' :: tail)) = some (cs, tail) := by
  induction cs with
  | nil =>
    intro fuel tail h
    obtain ⟨f, rfl⟩ : ∃ f, fuel = f + 1 := ⟨fuel - 1, by omega⟩
    simp [parseStringBodyAux]
  | cons c cs ih =>
    intro fuel tail h
    obtain ⟨f, rfl⟩ : ∃ f, fuel = f + 1 := ⟨fuel - 1, by omega⟩
    rw [List.flatMap_cons, List.append_assoc, psbAux_encodeChar,
      ih f tail (by simp at h; omega)]
    rfl

theorem encodeChar_length_pos (c : Char) : 1 ≤ (encodeChar c).length := by
  unfold encodeChar
  repeat' split
  all_goals simp

theorem flatMap_encode_length (cs : List Char) : cs.length ≤ (cs.flatMap encodeChar).length := by
  induction cs with
  | nil => simp
  | cons c cs ih =>
    rw [List.flatMap_cons, List.length_append, List.length_cons]
    have := encodeChar_length_pos c
    omega

theorem psb_encode (cs : List Char) (tail : List Char) :
    parseStringBody (cs.flatMap encodeChar ++ ('"' :: tail)) = some (cs, tail) := by
  apply psbAux_encode
  rw [List.length_append]
  have := flatMap_encode_length cs
  simp only [List.length_cons]
  omega

theorem isDigit_hexDig10 (d : Nat) (h : d < 10) : isDigitChar (hexDig d) = true := by
  have key : ∀ x : Fin 10, isDigitChar (hexDig x.val) = true := by decide
  exact key ⟨d, h⟩

theorem hexDig_toNat10 (d : Nat) (h : d < 10) : (hexDig d).toNat = 48 + d := by
  have key : ∀ x : Fin 10, (hexDig x.val).toNat = 48 + x.val := by decide
  exact key ⟨d, h⟩

theorem natDecChars_head (n : Nat) :
    ∃ c r, natDecChars n = c :: r ∧ isDigitChar c = true := by
  induction n using Nat.strong_induction_on with
  | _ n ih =>
    by_cases h : n < 10
    · exact ⟨hexDig n, [], by rw [natDecChars]; simp [h], isDigit_hexDig10 n h⟩
    · obtain ⟨c, r, hcr, hdig⟩ := ih (n / 10) (Nat.div_lt_self (by omega) (by omega))
      refine ⟨c, r ++ [hexDig (n % 10)], ?_, hdig⟩
      rw [natDecChars]
      simp [h, hcr]

theorem parseDigitsAux_digit (d : Nat) (h : d < 10) (r : List Char) (acc : Nat) :
    parseDigitsAux (hexDig d :: r) acc = parseDigitsAux r (acc * 10 + d) := by
  simp only [parseDigitsAux, isDigit_hexDig10 d h, if_true, hexDig_toNat10 d h]
  congr 1
  omega

theorem parseDigitsAux_noDigit (l : List Char) (h : noDigitHead l = true) (acc : Nat) :
    parseDigitsAux l acc = (acc, l) := by
  cases l with
  | nil => rfl
  | cons c r =>
    simp only [noDigitHead, Bool.not_eq_true'] at h
    simp [parseDigitsAux, h]

theorem parseDigitsAux_dec (n : Nat) : ∀ (acc : Nat) (tail : List Char),
    parseDigitsAux (natDecChars n ++ tail) acc =
      parseDigitsAux tail (acc * 10 ^ (natDecChars n).length + n) := by
  induction n using Nat.strong_induction_on with
  | _ n ih =>
    intro acc tail
    by_cases h : n < 10
    · rw [natDecChars]
      simp only [h, if_true, if_pos h, List.cons_append, List.nil_append, List.length_cons,
        List.length_nil]
      rw [parseDigitsAux_digit n h]
      norm_num
    · rw [natDecChars]
      simp only [h, if_false, if_neg h]
      rw [List.append_assoc, ih (n / 10) (Nat.div_lt_self (by omega) (by omega)),
        List.cons_append, List.nil_append,
        parseDigitsAux_digit (n % 10) (Nat.mod_lt _ (by omega)),
        List.length_append, List.length_cons, List.length_nil]
      congr 1
      rw [pow_succ, ← Nat.mul_assoc]
      have hdm := Nat.div_add_mod n 10
      generalize acc * 10 ^ (natDecChars (n / 10)).length = A
      omega

theorem digitChar_props (c : Char) (h : isDigitChar c = true) :
    isWsChar c = false ∧ c ≠ '"' ∧ c ≠ '{' ∧ c ≠ '[' ∧ c ≠ 't' ∧ c ≠ 'f' ∧ c ≠ 'n' ∧ c ≠ '-' := by
  have hb : 48 ≤ c.toNat ∧ c.toNat ≤ 57 := by
    simpa [isDigitChar] using h
  have hq : c ≠ '"' := fun he => absurd (he ▸ hb) (by decide)
  have hbr : c ≠ '{' := fun he => absurd (he ▸ hb) (by decide)
  have hsq : c ≠ '[' := fun he => absurd (he ▸ hb) (by decide)
  have ht : c ≠ 't' := fun he => absurd (he ▸ hb) (by decide)
  have hf : c ≠ 'f' := fun he => absurd (he ▸ hb) (by decide)
  have hn : c ≠ 'n' := fun he => absurd (he ▸ hb) (by decide)
  have hm : c ≠ '-' := fun he => absurd (he ▸ hb) (by decide)
  have hw : isWsChar c = false := by
    have h1 : c ≠ ' ' := fun he => absurd (he ▸ hb) (by decide)
    have h2 : c ≠ '\n' := fun he => absurd (he ▸ hb) (by decide)
    have h3 : c ≠ '\t' := fun he => absurd (he ▸ hb) (by decide)
    have h4 : c ≠ '\r' := fun he => absurd (he ▸ hb) (by decide)
    simp [isWsChar, h1, h2, h3, h4]
  exact ⟨hw, hq, hbr, hsq, ht, hf, hn, hm⟩

theorem parseNumber_dec (n : Nat) (tail : List Char) (h : noDigitHead tail = true) :
    parseNumber (natDecChars n ++ tail) = some (.int (Int.ofNat n), tail) := by
  obtain ⟨c, r, hcr, hdig⟩ := natDecChars_head n
  obtain ⟨-, -, -, -, -, -, -, hm⟩ := digitChar_props c hdig
  rw [hcr, List.cons_append]
  simp only [parseNumber, if_neg hm, hdig, if_true]
  rw [← List.cons_append, ← hcr, parseDigitsAux_dec n 0 tail,
    parseDigitsAux_noDigit tail h]
  norm_num

theorem skipWs_cons_not (c : Char) (h : isWsChar c = false) (l : List Char) :
    skipWs (c :: l) = c :: l := by
  simp [skipWs, h]

theorem skipWs_newline (l : List Char) : skipWs ('\n' :: l) = skipWs l := by
  simp [skipWs, isWsChar]

theorem skipWs_space (l : List Char) : skipWs (' ' :: l) = skipWs l := by
  simp [skipWs, isWsChar]

theorem skipWs_indent (k : Nat) (l : List Char) : skipWs (wsIndent k ++ l) = skipWs l := by
  unfold wsIndent
  generalize 2 * k = m
  induction m with
  | zero => simp
  | succ m ih =>
    rw [List.replicate_succ, List.cons_append, skipWs_space, ih]

theorem mkData (s : String) : String.mk s.data = s := rfl

theorem skipWs_encodeString (k : String) (X : List Char) :
    skipWs (encodeString k ++ X) = encodeString k ++ X := by
  rw [encodeString, List.cons_append]
  exact skipWs_cons_not '"' (by decide) _

theorem VP_str (fuel : Nat) (s : String) : ValParses (fuel + 1) (encodeString s) (.str s) := by
  intro tail _
  have harr : encodeString s ++ tail = '"' :: (s.data.flatMap encodeChar ++ ('"' :: tail)) := by
    simp [encodeString]
  rw [harr]
  simp only [parseValue, skipWs_cons_not '"' (by decide), if_pos rfl, if_true,
    psb_encode s.data tail]

theorem VP_int (fuel : Nat) (n : Nat) : ValParses (fuel + 1) (natDecChars n) (.int (Int.ofNat n)) := by
  intro tail htail
  obtain ⟨c, r, hcr, hdig⟩ := natDecChars_head n
  obtain ⟨hw, hq, hbr, hsq, ht, hf, hn2, -⟩ := digitChar_props c hdig
  rw [hcr, List.cons_append]
  simp only [parseValue, skipWs_cons_not c hw, if_neg hq, if_neg hbr, if_neg hsq, if_neg ht,
    if_neg hf, if_neg hn2]
  rw [← List.cons_append, ← hcr]
  exact parseNumber_dec n tail htail

theorem noDigitHead_cons (c : Char) (X : List Char) (h : isDigitChar c = false) :
    noDigitHead (c :: X) = true := by
  simp [noDigitHead, h]

theorem parseValue_space (fuel : Nat) (l : List Char) :
    parseValue (fuel + 1) (' ' :: l) = parseValue (fuel + 1) l := by
  simp only [parseValue, skipWs_space]

theorem parseMembers_step (f : Nat) (k : String) (vs : List Char) (vj : Json)
    (hv : ValParses (f + 1) vs vj) (lvl : Nat) (NEXT : List Char)
    (ms : List (String × Json)) (rest : List Char)
    (hcont : parseMembers (f + 1) (skipWs NEXT) = some (.obj ms, rest)) :
    parseMembers (f + 2)
      (encodeString k ++ (':' :: ' ' :: (vs ++ (',' :: '\n' :: (wsIndent lvl ++ NEXT))))) =
      some (.obj ((k, vj) :: ms), rest) := by
  simp only [encodeString, List.cons_append, List.append_assoc, List.singleton_append,
    List.nil_append]
  rw [show f + 2 = (f + 1) + 1 from rfl, parseMembers.eq_2, psb_encode k.data]
  simp only []
  rw [skipWs_cons_not ':' (by decide)]
  simp only [parseValue_space]
  rw [hv (',' :: '\n' :: (wsIndent lvl ++ NEXT)) (noDigitHead_cons ',' _ (by decide))]
  simp only []
  rw [skipWs_cons_not ',' (by decide)]
  simp only [skipWs_newline, skipWs_indent, hcont]

theorem parseMembers_last (f : Nat) (k : String) (vs : List Char) (vj : Json)
    (hv : ValParses (f + 1) vs vj) (lvl : Nat) (tail : List Char) :
    parseMembers (f + 2)
      (encodeString k ++ (':' :: ' ' :: (vs ++ ('\n' :: (wsIndent lvl ++ ('}' :: tail)))))) =
      some (.obj [(k, vj)], tail) := by
  simp only [encodeString, List.cons_append, List.append_assoc, List.singleton_append,
    List.nil_append]
  rw [show f + 2 = (f + 1) + 1 from rfl, parseMembers.eq_2, psb_encode k.data]
  simp only []
  rw [skipWs_cons_not ':' (by decide)]
  simp only [parseValue_space]
  rw [hv ('\n' :: (wsIndent lvl ++ ('}' :: tail))) (noDigitHead_cons '\n' _ (by decide))]
  simp only [skipWs_newline, skipWs_indent]
  rw [skipWs_cons_not '}' (by decide)]
  rfl

theorem parseElements_step (f : Nat) (vs : List Char) (vj : Json)
    (hv : ValParses (f + 1) vs vj) (lvl : Nat) (NEXT : List Char)
    (vsj : List Json) (rest : List Char)
    (hcont : parseElements (f + 1) (skipWs NEXT) = some (.arr vsj, rest)) :
    parseElements (f + 2) (vs ++ (',' :: '\n' :: (wsIndent lvl ++ NEXT))) =
      some (.arr (vj :: vsj), rest) := by
  rw [show f + 2 = (f + 1) + 1 from rfl, parseElements.eq_2]
  rw [hv (',' :: '\n' :: (wsIndent lvl ++ NEXT)) (noDigitHead_cons ',' _ (by decide))]
  simp only []
  rw [skipWs_cons_not ',' (by decide)]
  simp only [skipWs_newline, skipWs_indent]
  rw [hcont]

theorem parseElements_last (f : Nat) (vs : List Char) (vj : Json)
    (hv : ValParses (f + 1) vs vj) (lvl : Nat) (tail : List Char) :
    parseElements (f + 2) (vs ++ ('\n' :: (wsIndent lvl ++ (']' :: tail)))) =
      some (.arr [vj], tail) := by
  rw [show f + 2 = (f + 1) + 1 from rfl, parseElements.eq_2]
  rw [hv ('\n' :: (wsIndent lvl ++ (']' :: tail))) (noDigitHead_cons '\n' _ (by decide))]
  simp only [skipWs_newline, skipWs_indent]
  rw [skipWs_cons_not ']' (by decide)]
  rfl

theorem parseValue_objBranch (fuel : Nat) (r : List Char) (c : Char) (X : List Char)
    (hr : skipWs r = c :: X) (hc : c ≠ '}') :
    parseValue (fuel + 1) ('{' :: r) = parseMembers fuel (skipWs r) := by
  simp only [parseValue, skipWs_cons_not '{' (by decide), if_neg (show ('{' : Char) ≠ '"' by decide),
    if_pos rfl, if_true, hr]
  split
  next rest heq =>
    exact absurd (by injection heq) hc
  next => rfl

theorem parseValue_arrBranch (fuel : Nat) (r : List Char) (c : Char) (X : List Char)
    (hr : skipWs r = c :: X) (hc : c ≠ ']') :
    parseValue (fuel + 1) ('[' :: r) = parseElements fuel (skipWs r) := by
  simp only [parseValue, skipWs_cons_not '[' (by decide), if_neg (show ('[' : Char) ≠ '"' by decide),
    if_neg (show ('[' : Char) ≠ '{' by decide), if_pos rfl, if_true, hr]
  split
  next rest heq =>
    exact absurd (by injection heq) hc
  next => rfl

theorem parseMembers_strStep (f : Nat) (k v : String) (lvl : Nat) (NEXT : List Char)
    (ms : List (String × Json)) (rest : List Char)
    (hcont : parseMembers (f + 1) (skipWs NEXT) = some (.obj ms, rest)) :
    parseMembers (f + 2)
      ('"' :: (k.data.flatMap encodeChar ++ ('"' :: ':' :: ' ' :: '"' ::
        (v.data.flatMap encodeChar ++ ('"' :: ',' :: '\n' :: (wsIndent lvl ++ NEXT)))))) =
      some (.obj ((k, .str v) :: ms), rest) := by
  have h := parseMembers_step f k (encodeString v) (.str v) (VP_str f v) lvl NEXT ms rest hcont
  simpa only [encodeString, List.cons_append, List.append_assoc, List.singleton_append,
    List.nil_append] using h

theorem parseMembers_strLast (f : Nat) (k v : String) (lvl : Nat) (tail : List Char) :
    parseMembers (f + 2)
      ('"' :: (k.data.flatMap encodeChar ++ ('"' :: ':' :: ' ' :: '"' ::
        (v.data.flatMap encodeChar ++ ('"' :: '\n' :: (wsIndent lvl ++ ('}' :: tail))))))) =
      some (.obj [(k, .str v)], tail) := by
  have h := parseMembers_last f k (encodeString v) (.str v) (VP_str f v) lvl tail
  simpa only [encodeString, List.cons_append, List.append_assoc, List.singleton_append,
    List.nil_append] using h

theorem parseMembers_valStep (f : Nat) (k : String) (vs : List Char) (vj : Json)
    (hv : ValParses (f + 1) vs vj) (lvl : Nat) (NEXT : List Char)
    (ms : List (String × Json)) (rest : List Char)
    (hcont : parseMembers (f + 1) (skipWs NEXT) = some (.obj ms, rest)) :
    parseMembers (f + 2)
      ('"' :: (k.data.flatMap encodeChar ++ ('"' :: ':' :: ' ' ::
        (vs ++ (',' :: '\n' :: (wsIndent lvl ++ NEXT)))))) =
      some (.obj ((k, vj) :: ms), rest) := by
  have h := parseMembers_step f k vs vj hv lvl NEXT ms rest hcont
  simpa only [encodeString, List.cons_append, List.append_assoc, List.singleton_append,
    List.nil_append] using h

theorem parseMembers_valLast (f : Nat) (k : String) (vs : List Char) (vj : Json)
    (hv : ValParses (f + 1) vs vj) (lvl : Nat) (tail : List Char) :
    parseMembers (f + 2)
      ('"' :: (k.data.flatMap encodeChar ++ ('"' :: ':' :: ' ' ::
        (vs ++ ('\n' :: (wsIndent lvl ++ ('}' :: tail))))))) =
      some (.obj [(k, vj)], tail) := by
  have h := parseMembers_last f k vs vj hv lvl tail
  simpa only [encodeString, List.cons_append, List.append_assoc, List.singleton_append,
    List.nil_append] using h

theorem parseValue_objQuote (fuel : Nat) (A : List Char) (W : Nat) :
    parseValue (fuel + 1) ('{' :: '\n' :: (wsIndent W ++ '"' :: A)) = parseMembers fuel ('"' :: A) := by
  simp only [parseValue, skipWs_cons_not '{' (by decide),
    if_neg (show ('{' : Char) ≠ '"' by decide), if_pos rfl, if_true, skipWs_newline,
    skipWs_indent, skipWs_cons_not '"' (by decide)]
  split
  next rest heq => simp at heq
  next => rfl

theorem VP_record (r : MpNewsRecord) (lvl g : Nat) :
    ValParses (g + 8) (dumpsVal (recordToJson r) lvl) (recordToJson r) := by
  intro tail htail
  simp only [recordToJson, dumpsVal, dumpsMember, dumpsObjTail, encodeString,
    List.cons_append, List.append_assoc, List.singleton_append, List.nil_append]
  rw [show g + 8 = (g + 7) + 1 from rfl, parseValue_objQuote]
  exact parseMembers_strStep (g + 5) "mp_name" r.mp_name (lvl + 1) _ _ tail (by
    rw [skipWs_cons_not '"' (by decide)]
    exact parseMembers_strStep (g + 4) "article_title" r.article_title (lvl + 1) _ _ tail (by
      rw [skipWs_cons_not '"' (by decide)]
      exact parseMembers_strStep (g + 3) "article_url" r.article_url (lvl + 1) _ _ tail (by
        rw [skipWs_cons_not '"' (by decide)]
        exact parseMembers_strStep (g + 2) "publication_date" r.publication_date (lvl + 1) _ _ tail (by
          rw [skipWs_cons_not '"' (by decide)]
          exact parseMembers_strStep (g + 1) "source_name" r.source_name (lvl + 1) _ _ tail (by
            rw [skipWs_cons_not '"' (by decide)]
            exact parseMembers_strLast g "article_summary" r.article_summary lvl tail)))))

theorem dumpsRecord_head_cons (r : MpNewsRecord) (lvl : Nat) (B : List Char) :
    ∃ Y, dumpsVal (recordToJson r) lvl ++ B = '{' :: Y := by
  simp only [recordToJson, dumpsVal, List.cons_append]
  exact ⟨_, rfl⟩

theorem skipWs_dumpsRecord (r : MpNewsRecord) (lvl : Nat) (B : List Char) :
    skipWs (dumpsVal (recordToJson r) lvl ++ B) = dumpsVal (recordToJson r) lvl ++ B := by
  obtain ⟨Y, hY⟩ := dumpsRecord_head_cons r lvl B
  rw [hY, skipWs_cons_not '{' (by decide)]

theorem parseValue_arrBrace (fuel : Nat) (r : MpNewsRecord) (lvl : Nat) (B : List Char) (W : Nat) :
    parseValue (fuel + 1) ('[' :: '\n' :: (wsIndent W ++ (dumpsVal (recordToJson r) lvl ++ B))) =
      parseElements fuel (dumpsVal (recordToJson r) lvl ++ B) := by
  obtain ⟨Y, hY⟩ := dumpsRecord_head_cons r lvl B
  rw [hY]
  simp only [parseValue, skipWs_cons_not '[' (by decide),
    if_neg (show ('[' : Char) ≠ '"' by decide), if_neg (show ('[' : Char) ≠ '{' by decide),
    if_pos rfl, if_true, skipWs_newline, skipWs_indent, skipWs_cons_not '{' (by decide)]
  split
  next rest heq => simp at heq
  next => rfl

theorem PE_records (rs : List MpNewsRecord) : ∀ (r : MpNewsRecord) (g lvl : Nat) (tail : List Char),
    parseElements (rs.length + g + 9)
      (dumpsVal (recordToJson r) (lvl + 1) ++
        (dumpsArrTail (rs.map recordToJson) (lvl + 1) ++ ('\n' :: (wsIndent lvl ++ (']' :: tail))))) =
      some (.arr ((r :: rs).map recordToJson), tail) := by
  induction rs with
  | nil =>
    intro r g lvl tail
    simp only [List.map_nil, dumpsArrTail, List.nil_append, List.length_nil, Nat.zero_add,
      List.map_cons]
    rw [show g + 9 = (g + 7) + 2 from rfl]
    exact parseElements_last (g + 7) _ _ (VP_record r (lvl + 1) g) lvl tail
  | cons r2 rs ih =>
    intro r g lvl tail
    simp only [List.map_cons, dumpsArrTail, List.cons_append, List.append_assoc,
      List.length_cons]
    rw [show rs.length + 1 + g + 9 = (rs.length + g + 8) + 2 by omega]
    refine parseElements_step (rs.length + g + 8) _ _ (VP_record r (lvl + 1) (rs.length + g + 1)) (lvl + 1) _ _ tail ?_
    rw [skipWs_dumpsRecord]
    exact ih r2 g lvl tail

theorem dumpsVal_arr_cons (x : Json) (xs : List Json) (lvl : Nat) :
    dumpsVal (.arr (x :: xs)) lvl =
      '[' :: '\n' :: (wsIndent (lvl + 1) ++ (dumpsVal x (lvl + 1) ++
        (dumpsArrTail xs (lvl + 1) ++ ('\n' :: (wsIndent lvl ++ [']']))))) := by
  simp only [dumpsVal, List.append_assoc, List.cons_append]

theorem VP_arrRecords (records : List MpNewsRecord) (lvl g : Nat) :
    ValParses (records.length + g + 10) (dumpsVal (.arr (records.map recordToJson)) lvl)
      (.arr (records.map recordToJson)) := by
  intro tail htail
  cases records with
  | nil =>
    simp only [List.map_nil, dumpsVal, List.cons_append, List.singleton_append,
      List.nil_append, List.length_nil, Nat.zero_add]
    simp only [parseValue, skipWs_cons_not '[' (by decide),
      if_neg (show ('[' : Char) ≠ '"' by decide), if_neg (show ('[' : Char) ≠ '{' by decide),
      if_pos rfl, if_true, skipWs_cons_not ']' (by decide)]
  | cons r rs =>
    rw [List.map_cons, dumpsVal_arr_cons]
    simp only [List.cons_append, List.append_assoc, List.singleton_append, List.nil_append,
      List.length_cons]
    rw [show rs.length + 1 + g + 10 = (rs.length + g + 10) + 1 by omega, parseValue_arrBrace]
    exact PE_records rs r (g + 1) lvl tail

theorem dumpsVal_obj_cons (m : String × Json) (ms : List (String × Json)) (lvl : Nat) :
    dumpsVal (.obj (m :: ms)) lvl =
      '{' :: '\n' :: (wsIndent (lvl + 1) ++ (dumpsMember m (lvl + 1) ++
        (dumpsObjTail ms (lvl + 1) ++ ('\n' :: (wsIndent lvl ++ ['}']))))) := by
  simp only [dumpsVal, List.append_assoc, List.cons_append]

theorem dumpsVal_int_eq (n : Int) (lvl : Nat) : dumpsVal (.int n) lvl = intChars n := by
  simp only [dumpsVal]

theorem dumpsVal_str_eq (s : String) (lvl : Nat) : dumpsVal (.str s) lvl = encodeString s := by
  simp only [dumpsVal]

theorem intChars_ofNat (n : Nat) : intChars (Int.ofNat n) = natDecChars n := by
  simp only [intChars]

theorem VP_top (s : SearchOutput) (g : Nat) :
    ValParses (s.research_list.length + g + 14) (dumpsVal (searchOutputToJson s) 0)
      (searchOutputToJson s) := by
  intro tail htail
  simp only [searchOutputToJson]
  rw [dumpsVal_obj_cons]
  simp only [dumpsObjTail, dumpsMember, dumpsVal_int_eq, dumpsVal_str_eq, intChars_ofNat,
    encodeString, List.cons_append, List.append_assoc, List.singleton_append, List.nil_append]
  rw [show s.research_list.length + g + 14 = (s.research_list.length + g + 13) + 1 by omega,
    parseValue_objQuote]
  refine parseMembers_valStep (s.research_list.length + g + 11) "research_list" _ _ ?_ 1 _ _ tail ?_
  · exact VP_arrRecords s.research_list 1 (g + 2)
  · rw [skipWs_cons_not '"' (by decide)]
    refine parseMembers_valStep (s.research_list.length + g + 10) "mp_count" _ _ ?_ 1 _ _ tail ?_
    · exact VP_int (s.research_list.length + g + 10) s.mp_count
    · rw [skipWs_cons_not '"' (by decide)]
      exact parseMembers_strStep (s.research_list.length + g + 9) "search_date" s.search_date 1 _ _ tail (by
        rw [skipWs_cons_not '"' (by decide)]
        exact parseMembers_strLast (s.research_list.length + g + 8) "timeframe" s.timeframe 0 tail)

theorem dumpsArrTail_length_ge (xs : List Json) (lvl : Nat) :
    xs.length ≤ (dumpsArrTail xs lvl).length := by
  induction xs with
  | nil => simp [dumpsArrTail]
  | cons x xs ih =>
    simp only [dumpsArrTail, List.length_cons, List.length_append]
    omega

theorem dumpsVal_arr_length_ge (xs : List Json) (lvl : Nat) :
    xs.length ≤ (dumpsVal (.arr xs) lvl).length := by
  cases xs with
  | nil => simp [dumpsVal]
  | cons x xs =>
    rw [dumpsVal_arr_cons]
    have h := dumpsArrTail_length_ge xs (lvl + 1)
    simp only [List.length_cons, List.length_append]
    omega

theorem dumps_top_length (s : SearchOutput) :
    s.research_list.length + 13 ≤ (dumpsVal (searchOutputToJson s) 0).length := by
  simp only [searchOutputToJson]
  rw [dumpsVal_obj_cons]
  have h := dumpsVal_arr_length_ge (s.research_list.map recordToJson) 1
  simp only [List.length_map] at h
  simp only [dumpsObjTail, dumpsMember, dumpsVal_int_eq, dumpsVal_str_eq, intChars_ofNat,
    encodeString, List.length_cons, List.length_append, List.cons_append, List.append_assoc,
    List.singleton_append, List.nil_append, Nat.zero_add]
  omega

theorem loads_dumps_searchOutput (s : SearchOutput) :
    loads (dumps (searchOutputToJson s)) = some (searchOutputToJson s) := by
  unfold loads dumps
  have hb := dumps_top_length s
  obtain ⟨g, hg⟩ : ∃ g, (String.mk (dumpsVal (searchOutputToJson s) 0)).length + 1 =
      s.research_list.length + g + 14 := by
    refine ⟨(dumpsVal (searchOutputToJson s) 0).length + 1 - (s.research_list.length + 14), ?_⟩
    have hlen : (String.mk (dumpsVal (searchOutputToJson s) 0)).length =
        (dumpsVal (searchOutputToJson s) 0).length := rfl
    omega
  rw [hg]
  have h := VP_top s g []
  rw [List.append_nil] at h
  have hdata : (String.mk (dumpsVal (searchOutputToJson s) 0)).data =
      dumpsVal (searchOutputToJson s) 0 := rfl
  rw [hdata, h rfl]
  simp only [skipWs]
  rfl

/-! ## Aggregation loop characterization -/

theorem aggregate_foldl (results : List (Option CrewOutput)) :
    ∀ acc : List MpNewsRecord × List String,
      results.foldl aggregateStep acc =
        (acc.1 ++ results.flatMap (fun result =>
            match result with
            | some (.pydanticOut mp) => mp.articles.map (recordOfArticle mp.mp_name)
            | _ => []),
          acc.2 ++ results.flatMap (fun result =>
            match result with
            | some (.rawOut raw) =>
                ["Warning: Result returned raw output instead of pydantic: " ++ raw]
            | _ => [])) := by
  induction results with
  | nil => intro acc; simp
  | cons result results ih =>
    intro acc
    rw [List.foldl_cons, ih]
    cases result with
    | none => simp [aggregateStep]
    | some o =>
      cases o with
      | pydanticOut mp => simp [aggregateStep]
      | rawOut raw => simp [aggregateStep]

/-- Claim C1: the research_list built by run_search_async holds exactly one
record per article of each crew result with parseable pydantic output,
carrying the title, url, publication date, source and summary of the
article together with the name of the MP; results without pydantic output contribute no
records, and only the raw-output ones are logged (then skipped). -/
theorem C1_aggregation_exact (results : List (Option CrewOutput))
    (mp_list : List MP) (timeframe : String) (today : Option String)
    (max_concurrency : Nat) (now : String) :
    (run_search_async mp_list timeframe today max_concurrency now results).research_list =
      results.flatMap (fun result =>
        match result with
        | some (.pydanticOut mp) =>
            mp.articles.map (fun a =>
              { mp_name := mp.mp_name, article_title := a.title, article_url := a.url,
                publication_date := a.publication_date, source_name := a.source,
                article_summary := a.summary })
        | _ => []) ∧
    (aggregateResults results).2 =
      results.flatMap (fun result =>
        match result with
        | some (.rawOut raw) =>
            ["Warning: Result returned raw output instead of pydantic: " ++ raw]
        | _ => []) := by
  have h := aggregate_foldl results ([], [])
  constructor
  · show (aggregateResults results).1 = _
    rw [aggregateResults, h]
    simp only [List.nil_append]
    refine congrArg _ (funext fun result => ?_)
    cases result with
    | none => rfl
    | some o => cases o <;> rfl
  · rw [aggregateResults, h]
    simp

/-- Claim C7: the dict run_search_async returns carries mp_count equal to
the number of MPs in the input list (independent of how many searches
produced parseable results), search_date equal to the today argument, and
timeframe equal to the timeframe argument. -/
theorem C7_header_fields (mp_list : List MP) (timeframe t : String) (max_concurrency : Nat)
    (now : String) (results : List (Option CrewOutput)) :
    (run_search_async mp_list timeframe (some t) max_concurrency now results).mp_count =
      mp_list.length ∧
    (run_search_async mp_list timeframe (some t) max_concurrency now results).search_date = t ∧
    (run_search_async mp_list timeframe (some t) max_concurrency now results).timeframe =
      timeframe :=
  ⟨rfl, rfl, rfl⟩

/-- Claim C6, evaluated at the failing input: run_search_async derives
max_rpm = max_concurrency * 20, but passes no concurrency bound to
kickoff_for_each_async - with max_concurrency = 1 and two MPs, both per-MP
crew executions are launched concurrently. -/
theorem C6_rpm_but_no_bound :
    (∀ (mp_list : List MP) (tf : String) (today : Option String) (mc : Nat) (now : String),
      (searchKickoffCall mp_list tf today mc now).max_rpm = mc * 20 ∧
      kickoffConcurrentExecutions (searchKickoffCall mp_list tf today mc now) =
        mp_list.length) ∧
    (searchKickoffCall [⟨"Alice", "France"⟩, ⟨"Bob", "Germany"⟩] "8 months"
        (some "2025-01-01") 1 "2025-01-01").max_rpm = 20 ∧
    kickoffConcurrentExecutions (searchKickoffCall [⟨"Alice", "France"⟩, ⟨"Bob", "Germany"⟩]
        "8 months" (some "2025-01-01") 1 "2025-01-01") = 2 ∧ 1 < 2 := by
  refine ⟨fun mp_list tf today mc now => ⟨rfl, ?_⟩, rfl, rfl, by omega⟩
  simp [kickoffConcurrentExecutions, searchKickoffCall, buildInputsList]

/-- Claim C2: more than one of the three flags is rejected - the error is
printed, the process exits with status 1, and no phase runs; exactly one
flag (with its required artifact present) runs only that phase; no flags
run all three phases in order. -/
theorem C2_flag_selection (args : Args) (fs0 : FileSystem) (inputs : Inputs)
    (crewResults : List (Option CrewOutput)) (report : String) :
    (flagCount args > 1 →
      run args fs0 inputs crewResults report =
        { phases := [],
          term := .exited 1
            "Error: Only one of --search-only, --analyze-only, --email-only can be specified",
          fs := fs0 }) ∧
    (args = ⟨true, false, false⟩ →
      (run args fs0 inputs crewResults report).phases = [.search] ∧
      (run args fs0 inputs crewResults report).term = .completed) ∧
    (∀ contents j, args = ⟨false, true, false⟩ → fs0.search_results_file = some contents →
      loads contents = some j →
      (run args fs0 inputs crewResults report).phases = [.analyze] ∧
      (run args fs0 inputs crewResults report).term = .completed) ∧
    (∀ rep, args = ⟨false, false, true⟩ → fs0.summary_report_file = some rep →
      (run args fs0 inputs crewResults report).phases = [.email] ∧
      (run args fs0 inputs crewResults report).term = .completed) ∧
    (args = ⟨false, false, false⟩ →
      (run args fs0 inputs crewResults report).phases = [.search, .analyze, .email] ∧
      (run args fs0 inputs crewResults report).term = .completed) := by
  refine ⟨fun h => ?_, fun h => ?_, fun contents j h hf hl => ?_, fun rep h hf => ?_, fun h => ?_⟩
  · simp [run, h]
  · subst h
    simp [run, flagCount]
  · subst h
    simp only [run, flagCount]
    simp only [load_search_results, hf, hl]
    exact ⟨rfl, rfl⟩
  · subst h
    simp only [run, flagCount]
    simp only [run_phase3_email, load_summary_report, hf]
    exact ⟨rfl, rfl⟩
  · subst h
    simp only [run, flagCount]
    simp only [run_phase3_email, run_phase2_analysis, writeSummaryReport, load_summary_report]
    exact ⟨rfl, rfl⟩

theorem C2_flag_selection_witness :
    run ⟨true, true, false⟩ ⟨none, none⟩ ⟨[], "2025-01-01", "8 months"⟩ [] "rep" =
      { phases := [],
        term := .exited 1
          "Error: Only one of --search-only, --analyze-only, --email-only can be specified",
        fs := ⟨none, none⟩ } ∧
    (run ⟨true, false, false⟩ ⟨none, none⟩ ⟨[], "2025-01-01", "8 months"⟩ [] "rep").phases =
      [.search] ∧
    (run ⟨false, true, false⟩ ⟨some "\x7b\x7d", none⟩ ⟨[], "2025-01-01", "8 months"⟩ [] "rep").phases =
      [.analyze] ∧
    (run ⟨false, false, true⟩ ⟨none, some "rep"⟩ ⟨[], "2025-01-01", "8 months"⟩ [] "rep").phases =
      [.email] ∧
    (run ⟨false, false, false⟩ ⟨none, none⟩ ⟨[], "2025-01-01", "8 months"⟩ [] "rep").phases =
      [.search, .analyze, .email] :=
  ⟨(C2_flag_selection _ _ _ _ _).1 (by decide),
   ((C2_flag_selection _ _ _ _ _).2.1 rfl).1,
   ((C2_flag_selection _ _ _ _ _).2.2.1 "\x7b\x7d" (.obj []) rfl rfl rfl).1,
   ((C2_flag_selection _ _ _ _ _).2.2.2.1 "rep" rfl rfl).1,
   ((C2_flag_selection _ _ _ _ _).2.2.2.2 rfl).1⟩

/-- Claim C5: running --analyze-only without search_results.json, or
--email-only without summary_report.md, raises a FileNotFoundError whose
message names the missing file and tells the user to run the missing prior
phase first; run catches it, prints it with an Error: prefix, and exits
with status 1 without running any phase. -/
theorem C5_missing_artifact (fs0 : FileSystem) (inputs : Inputs)
    (crewResults : List (Option CrewOutput)) (report : String) :
    (fs0.search_results_file = none →
      run ⟨false, true, false⟩ fs0 inputs crewResults report =
        { phases := [],
          term := .exited 1 ("Error: " ++ ("Search results not found at " ++
            SEARCH_RESULTS_FILE ++ "\n" ++
            "Run \x27crewai run\x27 or \x27crewai run -- --search-only\x27 first.")),
          fs := fs0 } ∧
      load_search_results fs0 =
        .error (.fileNotFound ("Search results not found at " ++ SEARCH_RESULTS_FILE ++ "\n" ++
          "Run \x27crewai run\x27 or \x27crewai run -- --search-only\x27 first.")) ∧
      (∃ a b, "Search results not found at " ++ SEARCH_RESULTS_FILE ++ "\n" ++
        "Run \x27crewai run\x27 or \x27crewai run -- --search-only\x27 first." =
          a ++ SEARCH_RESULTS_FILE ++ b) ∧
      (∃ a b, "Search results not found at " ++ SEARCH_RESULTS_FILE ++ "\n" ++
        "Run \x27crewai run\x27 or \x27crewai run -- --search-only\x27 first." =
          a ++ "--search-only" ++ b)) ∧
    (fs0.summary_report_file = none →
      run ⟨false, false, true⟩ fs0 inputs crewResults report =
        { phases := [],
          term := .exited 1 ("Error: " ++ ("Summary report not found at " ++
            SUMMARY_REPORT_FILE ++ "\n" ++
            "Run \x27crewai run\x27 or \x27crewai run -- --analyze-only\x27 first.")),
          fs := fs0 } ∧
      (∃ a b, "Summary report not found at " ++ SUMMARY_REPORT_FILE ++ "\n" ++
        "Run \x27crewai run\x27 or \x27crewai run -- --analyze-only\x27 first." =
          a ++ SUMMARY_REPORT_FILE ++ b) ∧
      (∃ a b, "Summary report not found at " ++ SUMMARY_REPORT_FILE ++ "\n" ++
        "Run \x27crewai run\x27 or \x27crewai run -- --analyze-only\x27 first." =
          a ++ "--analyze-only" ++ b)) := by
  constructor
  · intro h
    refine ⟨?_, ?_, ⟨"Search results not found at ",
      "\n" ++ "Run \x27crewai run\x27 or \x27crewai run -- --search-only\x27 first.", by rfl⟩,
      ⟨"Search results not found at " ++ SEARCH_RESULTS_FILE ++ "\n" ++
        "Run \x27crewai run\x27 or \x27crewai run -- ", "\x27 first.", by rfl⟩⟩
    · simp only [run, flagCount]
      simp only [load_search_results, h]
      rfl
    · simp only [load_search_results, h]
  · intro h
    refine ⟨?_, ⟨"Summary report not found at ",
      "\n" ++ "Run \x27crewai run\x27 or \x27crewai run -- --analyze-only\x27 first.", by rfl⟩,
      ⟨"Summary report not found at " ++ SUMMARY_REPORT_FILE ++ "\n" ++
        "Run \x27crewai run\x27 or \x27crewai run -- ", "\x27 first.", by rfl⟩⟩
    simp only [run, flagCount]
    simp only [run_phase3_email, load_summary_report, h]
    rfl

theorem C5_missing_artifact_witness :
    run ⟨false, true, false⟩ ⟨none, some "rep"⟩ ⟨[], "2025-01-01", "8 months"⟩ [] "rep" =
      { phases := [],
        term := .exited 1 ("Error: " ++ ("Search results not found at " ++
          SEARCH_RESULTS_FILE ++ "\n" ++
          "Run \x27crewai run\x27 or \x27crewai run -- --search-only\x27 first.")),
        fs := ⟨none, some "rep"⟩ } ∧
    run ⟨false, false, true⟩ ⟨some "\x7b\x7d", none⟩ ⟨[], "2025-01-01", "8 months"⟩ [] "rep" =
      { phases := [],
        term := .exited 1 ("Error: " ++ ("Summary report not found at " ++
          SUMMARY_REPORT_FILE ++ "\n" ++
          "Run \x27crewai run\x27 or \x27crewai run -- --analyze-only\x27 first.")),
        fs := ⟨some "\x7b\x7d", none⟩ } :=
  ⟨((C5_missing_artifact ⟨none, some "rep"⟩ ⟨[], "2025-01-01", "8 months"⟩ [] "rep").1 rfl).1,
   ((C5_missing_artifact ⟨some "\x7b\x7d", none⟩ ⟨[], "2025-01-01", "8 months"⟩ [] "rep").2 rfl).1⟩

/-- Claim C4: the search-results dict written by run_phase1_search reads
back (through json.load) as exactly the JSON value that was serialized, and
the report written for the compose phase reads back as the identical
string: both intermediate artifacts round-trip losslessly. -/
theorem C4_artifact_round_trip :
    (∀ (fs : FileSystem) (inputs : Inputs) (crewResults : List (Option CrewOutput)),
      load_search_results (run_phase1_search fs inputs crewResults).1 =
        .ok (searchOutputToJson (run_phase1_search fs inputs crewResults).2)) ∧
    (∀ (fs : FileSystem) (report : String),
      load_summary_report (writeSummaryReport fs report) = .ok report) := by
  constructor
  · intro fs inputs crewResults
    simp only [run_phase1_search, load_search_results, loads_dumps_searchOutput]
  · intro fs report
    rfl

theorem envTruthy_some_ne (key : String) (h : key ≠ "") : envTruthy (some key) = true := by
  have hk : key.isEmpty = false := by
    rw [Bool.eq_false_iff]
    intro hc
    exact h ((String.isEmpty_iff key).mp hc)
  simp [envTruthy, hk]

/-- Claim C3: with the required API-key environment variable unset, the
_run of each tool returns a human-readable error string naming the variable
(rather than raising), and API exceptions during the call are likewise
converted to error strings. -/
theorem C3_error_strings :
    (∀ (api : BrevoApiOutcome) (toEmail subject html : String),
      (BrevoEmailTool.run none api toEmail subject html).1 =
        "Error: BREVO_API_KEY environment variable not set") ∧
    (∀ (mb nr : Int) (q : String) (api : SerperApiOutcome),
      (DateFilteredSerperTool.run ⟨none, mb, nr⟩ q api).1 =
        "Error: SERPER_API_KEY environment variable not set") ∧
    (∀ (api : SendGridApiOutcome) (toEmail subject html : String) (from_email : Option String),
      (SendGridEmailTool.run none api toEmail subject html from_email).1 =
        "Error: SENDGRID_API_KEY environment variable not set") ∧
    (∀ (key msg toEmail subject html : String), key ≠ "" →
      (BrevoEmailTool.run (some key) (.apiException msg) toEmail subject html).1 =
        "Error sending email (API): " ++ msg) ∧
    (∀ (key msg toEmail subject html : String), key ≠ "" →
      (BrevoEmailTool.run (some key) (.otherException msg) toEmail subject html).1 =
        "Error sending email: " ++ msg) ∧
    (∀ (key : String) (mb nr : Int) (q msg : String), key ≠ "" →
      (DateFilteredSerperTool.run ⟨some key, mb, nr⟩ q (.requestException msg)).1 =
        "Search error: " ++ msg) ∧
    (∀ (key msg toEmail subject html : String) (from_email : Option String), key ≠ "" →
      (SendGridEmailTool.run (some key) (.exception msg) toEmail subject html from_email).1 =
        "Error sending email: " ++ msg) := by
  refine ⟨fun api toEmail subject html => rfl, fun mb nr q api => rfl,
    fun api toEmail subject html from_email => rfl,
    fun key msg toEmail subject html h => ?_, fun key msg toEmail subject html h => ?_,
    fun key mb nr q msg h => ?_, fun key msg toEmail subject html from_email h => ?_⟩
  · simp [BrevoEmailTool.run, envTruthy_some_ne key h]
  · simp [BrevoEmailTool.run, envTruthy_some_ne key h]
  · simp [DateFilteredSerperTool.run, envTruthy_some_ne key h]
  · simp [SendGridEmailTool.run, envTruthy_some_ne key h]

theorem C3_error_strings_witness :
    (BrevoEmailTool.run none (.success "m") "a@b.c" "s" "h").1 =
      "Error: BREVO_API_KEY environment variable not set" ∧
    (BrevoEmailTool.run (some "K") (.apiException "boom") "a@b.c" "s" "h").1 =
      "Error sending email (API): boom" ∧
    (DateFilteredSerperTool.run ⟨some "K", 8, 10⟩ "q" (.requestException "down")).1 =
      "Search error: down" ∧
    (SendGridEmailTool.run (some "K") (.exception "oops") "a@b.c" "s" "h" none).1 =
      "Error sending email: oops" :=
  ⟨C3_error_strings.1 (.success "m") "a@b.c" "s" "h",
   C3_error_strings.2.2.2.1 "K" "boom" "a@b.c" "s" "h" (by decide),
   C3_error_strings.2.2.2.2.2.1 "K" 8 10 "q" "down" (by decide),
   C3_error_strings.2.2.2.2.2.2 "K" "oops" "a@b.c" "s" "h" none (by decide)⟩

/-- Claim C10: with the required API key unset, the _run of each tool returns
its error string before any external effect: no client is configured, no
request is posted, no email is sent. -/
theorem C10_no_effects_without_key :
    (∀ (api : BrevoApiOutcome) (toEmail subject html : String),
      (BrevoEmailTool.run none api toEmail subject html).2 = []) ∧
    (∀ (mb nr : Int) (q : String) (api : SerperApiOutcome),
      (DateFilteredSerperTool.run ⟨none, mb, nr⟩ q api).2 = []) ∧
    (∀ (api : SendGridApiOutcome) (toEmail subject html : String) (from_email : Option String),
      (SendGridEmailTool.run none api toEmail subject html from_email).2 = []) :=
  ⟨fun api toEmail subject html => rfl, fun mb nr q api => rfl,
   fun api toEmail subject html from_email => rfl⟩

/-- Claim C9: construction stores SERPER_API_KEY from the environment into
api_key, overriding any api_key kwarg, keeps months_back and n_results as
given (defaults 8 and 10), and the search payload uses exactly those stored
values for num and tbs. -/
theorem C9_serper_construction (env : Option String) (mb nr : Int) (kw : Option String)
    (q : String) :
    (DateFilteredSerperTool.init env mb nr kw).api_key = env ∧
    (DateFilteredSerperTool.init env mb nr kw).months_back = mb ∧
    (DateFilteredSerperTool.init env mb nr kw).n_results = nr ∧
    DateFilteredSerperTool.initDefault env = DateFilteredSerperTool.init env 8 10 none ∧
    serperPayload (DateFilteredSerperTool.init env mb nr kw) q =
      { q := q, num := nr, tbs := "qdr:m" ++ toString mb } :=
  ⟨rfl, rfl, rfl, rfl, rfl⟩

/-- Claim C8, counterexample: the ContentFilteredItem declaration does not
enforce the 0-10 bound - pydantic validation accepts a relevance_score of
11, so the bound is not an invariant of the record. -/
theorem C8_score_bound_counterexample :
    ContentFilteredItem.validate
      { mp_name := "Alice", article_title := "t", article_url := "u",
        publication_date := "d", source_name := "s", article_summary := "sum",
        relevance_score := 11, inclusion_reason := "r" } = true ∧
    ¬(0 ≤ (ContentFilteredItem.mk "Alice" "t" "u" "d" "s" "sum" 11 "r").relevance_score ∧
      (ContentFilteredItem.mk "Alice" "t" "u" "d" "s" "sum" 11 "r").relevance_score ≤ 10) :=
  ⟨rfl, by decide⟩

/-- Claim C8 (amended): the relevance_score field carries the 0-10 range
only in its description string; no ge/le constraint is declared, so
validation accepts every integer score. -/
theorem C8_score_descriptive_only (i : ContentFilteredItem) :
    ContentFilteredItem.validate i = true ∧
    relevance_score_field.description = "Relevance score 0-10" ∧
    relevance_score_field.ge = none ∧
    relevance_score_field.le = none :=
  ⟨rfl, rfl, rfl, rfl⟩

end MpNews
